import Mathlib

/-!
Shallow embedding of the wealth redistribution script
src/households/households.py over exact rational arithmetic.

The script operates on a pandas table; here a table is a list of rows.
Columnar whole-table arithmetic becomes a map over rows, and the scalar
c_bar is computed from the aggregate sums exactly as in the source.
Python float division by zero returns inf or nan rather than raising; in
this rational model division by zero yields 0.  The only statements
touching that case are settled at inputs where both semantics make the
conservation assertion of section 8 of the script fail, as noted at the
relevant theorems.
-/

/-- Module constant MAX_LIFE_EXPECTANCY of the script. -/
def MAX_LIFE_EXPECTANCY : Int := 100

/-- Module constant DEPENDENT_WEIGHT of the script (0.3). -/
def DEPENDENT_WEIGHT : Rat := 3 / 10

/-- The two overridable configuration constants of the model. -/
structure Config where
  max_life_expectancy : Int
  dependent_weight : Rat

/-- The configuration the script actually runs with. -/
def defaultConfig : Config :=
  { max_life_expectancy := MAX_LIFE_EXPECTANCY, dependent_weight := DEPENDENT_WEIGHT }

/-- One input row of the table; household_id is assigned positionally at
load time by load_household_data. -/
structure Household where
  household_id : Int
  age : Int
  dependents : Int
  net_worth : Rat
deriving DecidableEq

/-- One row after the single computation pass: the four loaded fields plus
every derived column assigned in sections 4, 6 and 7 of the script.  The L
column holds integers in the source (max of ints), hence L : Int here. -/
structure ComputedHousehold where
  household_id : Int
  age : Int
  dependents : Int
  net_worth : Rat
  phi : Rat
  L : Int
  L_phi : Rat
  target_lifetime_consumption : Rat
  annual_consumption : Rat
  transfer : Rat
  net_worth_after_redistribution : Rat
  marginal_utility : Rat
deriving DecidableEq

/-- equivalence_scale of the script: phi = 1 + weight * dependents. -/
def equivalence_scale (dependents : Int) (weight : Rat) : Rat :=
  1 + weight * dependents

/-- remaining_life_years of the script: L = max(0, max_age - age). -/
def remaining_life_years (age : Int) (max_age : Int) : Int :=
  max 0 (max_age - age)

/-- marginal_utility of the script: 1.0 / np.maximum(consumption_per_year, 1e-10). -/
def marginal_utility (consumption_per_year : Rat) : Rat :=
  1 / max consumption_per_year (1 / 10 ^ 10)

/-- TOTAL_RESOURCES of the script: sum of the net_worth column. -/
def TOTAL_RESOURCES (households : List Household) : Rat :=
  (households.map (·.net_worth)).sum

/-- The L_phi column entry of one household: L * phi. -/
def adjusted_life (cfg : Config) (h : Household) : Rat :=
  (remaining_life_years h.age cfg.max_life_expectancy : Rat) *
    equivalence_scale h.dependents cfg.dependent_weight

/-- total_adjusted_life of the script: sum of the L_phi column. -/
def total_adjusted_life (cfg : Config) (households : List Household) : Rat :=
  (households.map (adjusted_life cfg)).sum

/-- c_bar of the script: TOTAL_RESOURCES / total_adjusted_life. -/
def c_bar (cfg : Config) (households : List Household) : Rat :=
  TOTAL_RESOURCES households / total_adjusted_life cfg households

/-- The per-row part of the computation pass (sections 4, 6 and 7 of the
script), given the shared scalar cb = c_bar. -/
def computeRow (cfg : Config) (cb : Rat) (h : Household) : ComputedHousehold :=
  let phi := equivalence_scale h.dependents cfg.dependent_weight
  let L := remaining_life_years h.age cfg.max_life_expectancy
  let L_phi := (L : Rat) * phi
  let target := cb * L_phi
  let transfer := target - h.net_worth
  { household_id := h.household_id
    age := h.age
    dependents := h.dependents
    net_worth := h.net_worth
    phi := phi
    L := L
    L_phi := L_phi
    target_lifetime_consumption := target
    annual_consumption := cb * phi
    transfer := transfer
    net_worth_after_redistribution := h.net_worth + transfer
    marginal_utility := marginal_utility cb }

/-- The whole computation pass: every derived column of the script, one map
over the rows with the shared scalar c_bar. -/
def computeTable (cfg : Config) (households : List Household) : List ComputedHousehold :=
  households.map (computeRow cfg (c_bar cfg households))

/-- The numpy isclose predicate with its defaults rtol = 1e-5, atol = 1e-8. -/
def isclose (a b : Rat) : Bool :=
  decide (|a - b| ≤ 1 / 10 ^ 8 + 1 / 10 ^ 5 * |b|)

/-- The failures the script can raise after the computation pass: the two
assert statements of section 8 (there is no other error path in the core). -/
inductive ScriptError where
  | allocationMismatch
  | transferImbalance
deriving DecidableEq

/-- The computation pass followed by the consistency checks of section 8 of
the script, in source order: first the allocation conservation assert, then
the transfer balance assert; output is produced only when both pass. -/
def runChecks (cfg : Config) (households : List Household) :
    Except ScriptError (List ComputedHousehold) :=
  let table := computeTable cfg households
  if isclose ((table.map (·.target_lifetime_consumption)).sum) (TOTAL_RESOURCES households) then
    if isclose ((table.map (·.transfer)).sum) 0 then
      Except.ok table
    else
      Except.error ScriptError.transferImbalance
  else
    Except.error ScriptError.allocationMismatch

/-- First household of the concrete scenario in the spec. -/
def hA : Household := { household_id := 1, age := 30, dependents := 0, net_worth := 100 }

/-- Second household of the concrete scenario in the spec. -/
def hB : Household := { household_id := 2, age := 30, dependents := 2, net_worth := 100 }

/-- Sum of a mapped difference splits into a difference of sums. -/
theorem list_sum_map_sub {α : Type} (l : List α) (f g : α → Rat) :
    (l.map fun a => f a - g a).sum = (l.map f).sum - (l.map g).sum := by
  induction l with
  | nil => simp
  | cons a t ih => simp only [List.map_cons, List.sum_cons, ih]; ring

/-- The target column of the computed table is the L_phi column scaled by c_bar. -/
theorem computeTable_map_target (cfg : Config) (hs : List Household) :
    (computeTable cfg hs).map (·.target_lifetime_consumption)
      = hs.map fun h => c_bar cfg hs * adjusted_life cfg h := by
  rw [computeTable, List.map_map]
  rfl

/-- The transfer column of the computed table is target minus net worth, rowwise. -/
theorem computeTable_map_transfer (cfg : Config) (hs : List Household) :
    (computeTable cfg hs).map (·.transfer)
      = hs.map fun h => c_bar cfg hs * adjusted_life cfg h - h.net_worth := by
  rw [computeTable, List.map_map]
  rfl

/-- The net worth column passes through the computation pass unchanged. -/
theorem computeTable_map_net_worth (cfg : Config) (hs : List Household) :
    (computeTable cfg hs).map (·.net_worth) = hs.map (·.net_worth) := by
  rw [computeTable, List.map_map]
  rfl

/-- Claim C1: for every household table with positive total adjusted need, the
targets sum to the total resource pool exactly (hence within 1e-6 relative
tolerance) and the transfers sum to zero exactly (hence within the same
tolerance). -/
theorem allocation_conservation (cfg : Config) (hs : List Household)
    (hne : hs ≠ []) (hpos : 0 < total_adjusted_life cfg hs) :
    ((computeTable cfg hs).map (·.target_lifetime_consumption)).sum = TOTAL_RESOURCES hs ∧
    |((computeTable cfg hs).map (·.target_lifetime_consumption)).sum - TOTAL_RESOURCES hs|
      ≤ 1 / 10 ^ 6 * |TOTAL_RESOURCES hs| ∧
    ((computeTable cfg hs).map (·.transfer)).sum = 0 ∧
    |((computeTable cfg hs).map (·.transfer)).sum| ≤ 1 / 10 ^ 6 * |TOTAL_RESOURCES hs| := by
  have hsum : ((computeTable cfg hs).map (·.target_lifetime_consumption)).sum
      = TOTAL_RESOURCES hs := by
    rw [computeTable_map_target, List.sum_map_mul_left,
      show (hs.map (adjusted_life cfg)).sum = total_adjusted_life cfg hs from rfl,
      c_bar, div_mul_cancel₀ _ (ne_of_gt hpos)]
  have htr : ((computeTable cfg hs).map (·.transfer)).sum = 0 := by
    rw [computeTable_map_transfer, list_sum_map_sub, List.sum_map_mul_left,
      show (hs.map (adjusted_life cfg)).sum = total_adjusted_life cfg hs from rfl,
      c_bar, div_mul_cancel₀ _ (ne_of_gt hpos),
      show (hs.map fun h => h.net_worth).sum = TOTAL_RESOURCES hs from rfl, sub_self]
  refine ⟨hsum, ?_, htr, ?_⟩
  · rw [hsum, sub_self, abs_zero]
    positivity
  · rw [htr, abs_zero]
    positivity

/-- Witness for claim C1 at the concrete two-household scenario. -/
theorem allocation_conservation_witness :
    ((computeTable defaultConfig [hA, hB]).map (·.target_lifetime_consumption)).sum
      = TOTAL_RESOURCES [hA, hB] ∧
    |((computeTable defaultConfig [hA, hB]).map (·.target_lifetime_consumption)).sum
        - TOTAL_RESOURCES [hA, hB]|
      ≤ 1 / 10 ^ 6 * |TOTAL_RESOURCES [hA, hB]| ∧
    ((computeTable defaultConfig [hA, hB]).map (·.transfer)).sum = 0 ∧
    |((computeTable defaultConfig [hA, hB]).map (·.transfer)).sum|
      ≤ 1 / 10 ^ 6 * |TOTAL_RESOURCES [hA, hB]| :=
  allocation_conservation defaultConfig [hA, hB] (by simp)
    (by norm_num [total_adjusted_life, adjusted_life, hA, hB, remaining_life_years,
      equivalence_scale, defaultConfig, MAX_LIFE_EXPECTANCY, DEPENDENT_WEIGHT])

/-- Claim C3: all rows of the computed table carry the same marginal_utility
value, with exact equality, since the column is the single scalar
marginal_utility(c_bar) broadcast to every row. -/
theorem marginal_utility_equalized (cfg : Config) (hs : List Household)
    (r1 r2 : ComputedHousehold)
    (h1 : r1 ∈ computeTable cfg hs) (h2 : r2 ∈ computeTable cfg hs) :
    r1.marginal_utility = r2.marginal_utility := by
  simp only [computeTable, List.mem_map] at h1 h2
  obtain ⟨a, -, rfl⟩ := h1
  obtain ⟨b, -, rfl⟩ := h2
  rfl

/-- Witness for claim C3 on the two rows of the concrete scenario table. -/
theorem marginal_utility_equalized_witness :
    (computeRow defaultConfig (c_bar defaultConfig [hA, hB]) hA).marginal_utility
      = (computeRow defaultConfig (c_bar defaultConfig [hA, hB]) hB).marginal_utility :=
  marginal_utility_equalized defaultConfig [hA, hB] _ _
    (List.mem_map_of_mem _ (by simp)) (List.mem_map_of_mem _ (by simp))

/-- Claim C4: for every row of the computed table,
net_worth_after_redistribution equals net_worth plus transfer, and equals
target_lifetime_consumption exactly. -/
theorem net_worth_after_redistribution_eq_target (cfg : Config) (hs : List Household)
    (r : ComputedHousehold) (hr : r ∈ computeTable cfg hs) :
    r.net_worth_after_redistribution = r.net_worth + r.transfer ∧
    r.net_worth_after_redistribution = r.target_lifetime_consumption := by
  simp only [computeTable, List.mem_map] at hr
  obtain ⟨a, -, rfl⟩ := hr
  refine ⟨rfl, ?_⟩
  show a.net_worth
      + ((computeRow cfg (c_bar cfg hs) a).target_lifetime_consumption - a.net_worth)
    = (computeRow cfg (c_bar cfg hs) a).target_lifetime_consumption
  ring

/-- Witness for claim C4 on the first row of the concrete scenario table. -/
theorem net_worth_after_redistribution_eq_target_witness :
    (computeRow defaultConfig (c_bar defaultConfig [hA, hB]) hA).net_worth_after_redistribution
        = (computeRow defaultConfig (c_bar defaultConfig [hA, hB]) hA).net_worth
          + (computeRow defaultConfig (c_bar defaultConfig [hA, hB]) hA).transfer ∧
    (computeRow defaultConfig (c_bar defaultConfig [hA, hB]) hA).net_worth_after_redistribution
        = (computeRow defaultConfig (c_bar defaultConfig [hA, hB]) hA).target_lifetime_consumption :=
  net_worth_after_redistribution_eq_target defaultConfig [hA, hB] _
    (List.mem_map_of_mem _ (by simp))

/-- Claim C10: the computation pass only adds derived columns; the loaded
fields household_id, age, dependents and net_worth of every row are carried
into the final table unchanged, in order. -/
theorem computation_preserves_loaded_fields (cfg : Config) (hs : List Household) :
    (computeTable cfg hs).map
        (fun r => (r.household_id, r.age, r.dependents, r.net_worth))
      = hs.map (fun h => (h.household_id, h.age, h.dependents, h.net_worth)) := by
  rw [computeTable, List.map_map]
  rfl

/-- Claim C7: for every row of the computed table, phi is at least 1 whenever
the dependents count is non-negative, and L is at least 0 for every age
(ages past the maximum are clamped, not rejected); stated for any
non-negative dependent weight, which covers the configured 0.3. -/
theorem phi_ge_one_and_L_nonneg (cfg : Config) (hs : List Household)
    (hw : 0 ≤ cfg.dependent_weight) (r : ComputedHousehold)
    (hr : r ∈ computeTable cfg hs) :
    (0 ≤ r.dependents → 1 ≤ r.phi) ∧ 0 ≤ r.L := by
  simp only [computeTable, List.mem_map] at hr
  obtain ⟨a, -, rfl⟩ := hr
  constructor
  · intro hd
    have hd' : (0 : Int) ≤ a.dependents := hd
    have hdq : (0 : ℚ) ≤ (a.dependents : ℚ) := by exact_mod_cast hd'
    show (1 : ℚ) ≤ 1 + cfg.dependent_weight * (a.dependents : ℚ)
    nlinarith [mul_nonneg hw hdq]
  · exact le_max_left 0 _

/-- Witness for claim C7 on the second row of the concrete scenario table. -/
theorem phi_ge_one_and_L_nonneg_witness :
    (1 ≤ (computeRow defaultConfig (c_bar defaultConfig [hA, hB]) hB).phi) ∧
    0 ≤ (computeRow defaultConfig (c_bar defaultConfig [hA, hB]) hB).L :=
  have h := phi_ge_one_and_L_nonneg defaultConfig [hA, hB]
    (by norm_num [defaultConfig, DEPENDENT_WEIGHT]) _ (List.mem_map_of_mem _ (by simp))
  ⟨h.1 (by norm_num [computeRow, hB]), h.2⟩

/-- Claim C9: marginal_utility is total and safe: its divisor max(c, 1e-10)
is strictly positive for every rational input c, the result is strictly
positive (finite by construction in exact arithmetic), and for every
non-positive input the result is the clamped value 1e10. -/
theorem marginal_utility_total_and_clamped (c : Rat) :
    0 < max c (1 / 10 ^ 10) ∧ 0 < marginal_utility c ∧
      (c ≤ 0 → marginal_utility c = 10 ^ 10) := by
  have hmax : (0 : ℚ) < max c (1 / 10 ^ 10) :=
    lt_of_lt_of_le (by norm_num) (le_max_right _ _)
  refine ⟨hmax, div_pos one_pos hmax, ?_⟩
  intro hc
  rw [marginal_utility, max_eq_right (le_trans hc (by norm_num))]
  norm_num

/-- Witness for claim C9 at the non-positive consumption rate -5. -/
theorem marginal_utility_total_and_clamped_witness :
    0 < marginal_utility (-5 : ℚ) ∧ marginal_utility (-5 : ℚ) = 10 ^ 10 :=
  ⟨(marginal_utility_total_and_clamped (-5)).2.1,
   (marginal_utility_total_and_clamped (-5)).2.2 (by norm_num)⟩

/-- Claim C8: the concrete two-household scenario of the spec: L is 70 for
both rows, phi is 1 and 1.6, L_phi is 70 and 112, total resources 200,
c_bar = 200/182, targets 1000/13 and 1600/13 (within 0.01 of 76.92 and
123.08), transfers -300/13 and 300/13 (within 0.01 of -23.08 and 23.08),
and the transfers sum to zero. -/
theorem concrete_two_household_scenario :
    (computeTable defaultConfig [hA, hB]).map (·.L) = [70, 70] ∧
    (computeTable defaultConfig [hA, hB]).map (·.phi) = [1, 16 / 10] ∧
    (computeTable defaultConfig [hA, hB]).map (·.L_phi) = [70, 112] ∧
    TOTAL_RESOURCES [hA, hB] = 200 ∧
    c_bar defaultConfig [hA, hB] = 200 / 182 ∧
    (computeTable defaultConfig [hA, hB]).map (·.target_lifetime_consumption)
      = [1000 / 13, 1600 / 13] ∧
    |(1000 : ℚ) / 13 - 7692 / 100| ≤ 1 / 100 ∧
    |(1600 : ℚ) / 13 - 12308 / 100| ≤ 1 / 100 ∧
    (computeTable defaultConfig [hA, hB]).map (·.transfer) = [-300 / 13, 300 / 13] ∧
    |(-300 : ℚ) / 13 + 2308 / 100| ≤ 1 / 100 ∧
    |(300 : ℚ) / 13 - 2308 / 100| ≤ 1 / 100 ∧
    ((computeTable defaultConfig [hA, hB]).map (·.transfer)).sum = 0 := by
  norm_num [computeTable, computeRow, c_bar, TOTAL_RESOURCES, total_adjusted_life,
    adjusted_life, hA, hB, remaining_life_years, equivalence_scale, defaultConfig,
    MAX_LIFE_EXPECTANCY, DEPENDENT_WEIGHT, abs_le]

/-- Claim C2 counterexample: on the degenerate single household of age 100
with net worth 100 under the default configuration, the script does not
raise a dedicated degenerate-input error before dividing; it computes
through the division and aborts at the conservation assertion of section 8
(AssertionError in the source).  In the source the division by the zero
total adjusted need yields inf, the targets become nan and the assertion
fails; in this exact model the division yields 0 and the assertion fails
for the same input. -/
theorem degenerate_input_hits_conservation_assertion :
    runChecks defaultConfig [⟨1, 100, 0, 100⟩] = Except.error ScriptError.allocationMismatch := by
  norm_num [runChecks, isclose, computeTable, computeRow, c_bar, TOTAL_RESOURCES,
    total_adjusted_life, adjusted_life, remaining_life_years, equivalence_scale,
    defaultConfig, MAX_LIFE_EXPECTANCY, DEPENDENT_WEIGHT]

/-- Claim C2 (amended): for any single household at or past the maximum life
expectancy whose net worth is at least 1e-6 in magnitude, the run divides by
the zero total adjusted need and then halts with the allocation-conservation
assertion failure, producing no output; no DegenerateInputError exists in
the code. -/
theorem degenerate_need_fails_conservation_assert (cfg : Config)
    (i age dep : Int) (w : Rat)
    (hage : cfg.max_life_expectancy ≤ age) (hw : 1 / 10 ^ 6 ≤ |w|) :
    runChecks cfg [⟨i, age, dep, w⟩] = Except.error ScriptError.allocationMismatch := by
  have hL : remaining_life_years age cfg.max_life_expectancy = 0 := by
    rw [remaining_life_years, max_eq_left (by omega)]
  have hsum0 : ((computeTable cfg [⟨i, age, dep, w⟩]).map
      (·.target_lifetime_consumption)).sum = 0 := by
    simp [computeTable, computeRow, hL]
  have hR : TOTAL_RESOURCES [⟨i, age, dep, w⟩] = w := by
    simp [TOTAL_RESOURCES]
  have hcl : isclose 0 w = false := by
    rw [isclose, decide_eq_false_iff_not, zero_sub, abs_neg]
    intro hcon
    have h8 : (1 : ℚ) / 10 ^ 8 + 1 / 10 ^ 5 * |w| < |w| := by nlinarith
    linarith
  show (if isclose ((List.map (·.target_lifetime_consumption)
        (computeTable cfg [⟨i, age, dep, w⟩])).sum) (TOTAL_RESOURCES [⟨i, age, dep, w⟩]) then _
      else Except.error ScriptError.allocationMismatch)
    = Except.error ScriptError.allocationMismatch
  rw [hsum0, hR, hcl]
  simp

/-- Witness for the amended claim C2 at a second degenerate input: age 150
past the maximum, two dependents, negative net worth. -/
theorem degenerate_need_fails_conservation_assert_witness :
    runChecks defaultConfig [⟨1, 150, 2, -50⟩] = Except.error ScriptError.allocationMismatch :=
  degenerate_need_fails_conservation_assert defaultConfig 1 150 2 (-50)
    (by norm_num [defaultConfig, MAX_LIFE_EXPECTANCY]) (by norm_num)

/-- The element at the junction index of a list with one element inserted. -/
theorem list_getElem?_middle {α : Type} (pre post : List α) (a : α) :
    (pre ++ a :: post)[pre.length]? = some a := by
  rw [List.getElem?_append_right (le_refl pre.length)]
  simp

/-- The target column entry of the household sitting between pre and post. -/
theorem computeTable_target_at (cfg : Config) (pre post : List Household) (h : Household) :
    ((computeTable cfg (pre ++ h :: post)).map
        (·.target_lifetime_consumption))[pre.length]?
      = some (c_bar cfg (pre ++ h :: post) * adjusted_life cfg h) := by
  rw [computeTable_map_target, List.getElem?_map, list_getElem?_middle]
  rfl

/-- total_adjusted_life over an insertion splits off the inserted household. -/
theorem total_adjusted_life_insert (cfg : Config) (pre post : List Household) (h : Household) :
    total_adjusted_life cfg (pre ++ h :: post)
      = adjusted_life cfg h + (total_adjusted_life cfg pre + total_adjusted_life cfg post) := by
  simp only [total_adjusted_life, List.map_append, List.sum_append, List.map_cons, List.sum_cons]
  ring

/-- TOTAL_RESOURCES over an insertion splits off the inserted household. -/
theorem TOTAL_RESOURCES_insert (pre post : List Household) (h : Household) :
    TOTAL_RESOURCES (pre ++ h :: post)
      = h.net_worth + (TOTAL_RESOURCES pre + TOTAL_RESOURCES post) := by
  simp only [TOTAL_RESOURCES, List.map_append, List.sum_append, List.map_cons, List.sum_cons]
  ring

/-- The share R * x / (x + S) grows strictly with x when R and S are positive. -/
theorem share_strict_mono (R S x y : Rat) (hR : 0 < R) (hS : 0 < S)
    (hx : 0 < x) (hxy : x < y) :
    R * x / (x + S) < R * y / (y + S) := by
  rw [div_lt_div_iff (by linarith) (by linarith)]
  nlinarith [mul_pos (mul_pos hR hS) (sub_pos.mpr hxy)]

/-- Claim C5 (amended): holding age, net worth and all other households
fixed, strictly more dependents gives a strictly larger target, provided the
household is strictly below the maximum life expectancy, the dependent
weight is positive (0.3 in the script), total resources are positive and the
rest of the population has positive total adjusted need. -/
theorem target_strict_mono_in_dependents (cfg : Config) (pre post : List Household)
    (h : Household) (d1 d2 : Int)
    (hd1 : 0 ≤ d1) (hd : d1 < d2)
    (hage : h.age < cfg.max_life_expectancy)
    (hwpos : 0 < cfg.dependent_weight)
    (hR : 0 < TOTAL_RESOURCES (pre ++ { h with dependents := d1 } :: post))
    (hS : 0 < total_adjusted_life cfg pre + total_adjusted_life cfg post) :
    ∃ t1 t2,
      ((computeTable cfg (pre ++ { h with dependents := d1 } :: post)).map
          (·.target_lifetime_consumption))[pre.length]? = some t1 ∧
      ((computeTable cfg (pre ++ { h with dependents := d2 } :: post)).map
          (·.target_lifetime_consumption))[pre.length]? = some t2 ∧
      t1 < t2 := by
  refine ⟨_, _, computeTable_target_at cfg pre post _,
    computeTable_target_at cfg pre post _, ?_⟩
  have hLq : (0 : ℚ) < ((remaining_life_years h.age cfg.max_life_expectancy : Int) : ℚ) := by
    rw [remaining_life_years, max_eq_right (by omega)]
    exact_mod_cast (by omega : (0 : Int) < cfg.max_life_expectancy - h.age)
  have hd1q : (0 : ℚ) ≤ (d1 : ℚ) := by exact_mod_cast hd1
  have hdq : (d1 : ℚ) < (d2 : ℚ) := by exact_mod_cast hd
  have hphi1 : (0 : ℚ) < equivalence_scale d1 cfg.dependent_weight := by
    rw [equivalence_scale]
    nlinarith [mul_nonneg (le_of_lt hwpos) hd1q]
  have hphilt : equivalence_scale d1 cfg.dependent_weight
      < equivalence_scale d2 cfg.dependent_weight := by
    rw [equivalence_scale, equivalence_scale]
    nlinarith [mul_lt_mul_of_pos_left hdq hwpos]
  have hx1pos : 0 < adjusted_life cfg { h with dependents := d1 } := mul_pos hLq hphi1
  have hxlt : adjusted_life cfg { h with dependents := d1 }
      < adjusted_life cfg { h with dependents := d2 } :=
    mul_lt_mul_of_pos_left hphilt hLq
  have hReq : TOTAL_RESOURCES (pre ++ { h with dependents := d2 } :: post)
      = TOTAL_RESOURCES (pre ++ { h with dependents := d1 } :: post) := by
    rw [TOTAL_RESOURCES_insert, TOTAL_RESOURCES_insert]
  simp only [c_bar]
  rw [hReq, total_adjusted_life_insert, total_adjusted_life_insert,
    div_mul_eq_mul_div, div_mul_eq_mul_div]
  exact share_strict_mono _ _ _ _ hR hS hx1pos hxlt

/-- Witness for the amended claim C5: with one other household present,
raising the dependents of a 30 year old household from 0 to 2 strictly
raises its target. -/
theorem target_strict_mono_in_dependents_witness :
    ∃ t1 t2,
      ((computeTable defaultConfig ([] ++ (⟨3, 30, 0, 50⟩ : Household) :: [hA])).map
          (·.target_lifetime_consumption))[(0 : Nat)]? = some t1 ∧
      ((computeTable defaultConfig ([] ++ (⟨3, 30, 2, 50⟩ : Household) :: [hA])).map
          (·.target_lifetime_consumption))[(0 : Nat)]? = some t2 ∧
      t1 < t2 :=
  target_strict_mono_in_dependents defaultConfig [] [hA] ⟨3, 30, 0, 50⟩ 0 2
    (le_refl 0) (by norm_num) (by norm_num [defaultConfig, MAX_LIFE_EXPECTANCY])
    (by norm_num [defaultConfig, DEPENDENT_WEIGHT])
    (by norm_num [TOTAL_RESOURCES, hA])
    (by norm_num [total_adjusted_life, adjusted_life, hA, remaining_life_years,
      equivalence_scale, defaultConfig, MAX_LIFE_EXPECTANCY, DEPENDENT_WEIGHT])

/-- Claim C5 counterexample: at age 100 (at the maximum life expectancy) the
remaining life years are 0, so raising the dependents count from 0 to 2
while holding age and every other household fixed leaves the target at
exactly 0 for both runs instead of strictly increasing it. -/
theorem dependents_increase_can_leave_target_unchanged :
    ((computeTable defaultConfig [⟨1, 100, 0, 100⟩, hA]).map
        (·.target_lifetime_consumption))[0]? = some 0 ∧
    ((computeTable defaultConfig [⟨1, 100, 2, 100⟩, hA]).map
        (·.target_lifetime_consumption))[0]? = some 0 := by
  norm_num [computeTable, computeRow, c_bar, TOTAL_RESOURCES, total_adjusted_life,
    adjusted_life, hA, remaining_life_years, equivalence_scale, defaultConfig,
    MAX_LIFE_EXPECTANCY, DEPENDENT_WEIGHT]

/-- Claim C6 (amended): first part: holding dependents, net worth and all
other households fixed, increasing age while both ages stay strictly below
the maximum life expectancy strictly decreases the target, provided the
dependent count and weight are non-negative, total resources are positive
and the rest of the population has positive total adjusted need.  Second
part: at or beyond the maximum life expectancy the target of a row of the
computed table is exactly 0, unconditionally. -/
theorem target_strict_anti_in_age_and_zero_past_max :
    (∀ (cfg : Config) (pre post : List Household) (h : Household) (a1 a2 : Int),
      a1 < a2 → a2 < cfg.max_life_expectancy → 0 ≤ h.dependents →
      0 ≤ cfg.dependent_weight →
      0 < TOTAL_RESOURCES (pre ++ { h with age := a1 } :: post) →
      0 < total_adjusted_life cfg pre + total_adjusted_life cfg post →
      ∃ t1 t2,
        ((computeTable cfg (pre ++ { h with age := a1 } :: post)).map
            (·.target_lifetime_consumption))[pre.length]? = some t1 ∧
        ((computeTable cfg (pre ++ { h with age := a2 } :: post)).map
            (·.target_lifetime_consumption))[pre.length]? = some t2 ∧
        t2 < t1) ∧
    (∀ (cfg : Config) (hs : List Household) (r : ComputedHousehold),
      r ∈ computeTable cfg hs → cfg.max_life_expectancy ≤ r.age →
      r.target_lifetime_consumption = 0) := by
  constructor
  · intro cfg pre post h a1 a2 ha hmax hdep hw hR hS
    refine ⟨_, _, computeTable_target_at cfg pre post _,
      computeTable_target_at cfg pre post _, ?_⟩
    have hL2 : (0 : ℚ) < ((remaining_life_years a2 cfg.max_life_expectancy : Int) : ℚ) := by
      rw [remaining_life_years, max_eq_right (by omega)]
      exact_mod_cast (by omega : (0 : Int) < cfg.max_life_expectancy - a2)
    have hL21 : ((remaining_life_years a2 cfg.max_life_expectancy : Int) : ℚ)
        < ((remaining_life_years a1 cfg.max_life_expectancy : Int) : ℚ) := by
      rw [remaining_life_years, remaining_life_years,
        max_eq_right (by omega : (0 : Int) ≤ cfg.max_life_expectancy - a1),
        max_eq_right (by omega : (0 : Int) ≤ cfg.max_life_expectancy - a2)]
      exact_mod_cast (by omega : cfg.max_life_expectancy - a2 < cfg.max_life_expectancy - a1)
    have hdq : (0 : ℚ) ≤ (h.dependents : ℚ) := by exact_mod_cast hdep
    have hphi : (0 : ℚ) < equivalence_scale h.dependents cfg.dependent_weight := by
      rw [equivalence_scale]
      nlinarith [mul_nonneg hw hdq]
    have hx2pos : 0 < adjusted_life cfg { h with age := a2 } := mul_pos hL2 hphi
    have hxlt : adjusted_life cfg { h with age := a2 }
        < adjusted_life cfg { h with age := a1 } :=
      mul_lt_mul_of_pos_right hL21 hphi
    have hReq : TOTAL_RESOURCES (pre ++ { h with age := a2 } :: post)
        = TOTAL_RESOURCES (pre ++ { h with age := a1 } :: post) := by
      rw [TOTAL_RESOURCES_insert, TOTAL_RESOURCES_insert]
    simp only [c_bar]
    rw [hReq, total_adjusted_life_insert, total_adjusted_life_insert,
      div_mul_eq_mul_div, div_mul_eq_mul_div]
    exact share_strict_mono _ _ _ _ hR hS hx2pos hxlt
  · intro cfg hs r hr hage
    simp only [computeTable, List.mem_map] at hr
    obtain ⟨a, -, rfl⟩ := hr
    have hage' : cfg.max_life_expectancy ≤ a.age := hage
    have hL0 : remaining_life_years a.age cfg.max_life_expectancy = 0 := by
      rw [remaining_life_years, max_eq_left (by omega)]
    show c_bar cfg hs * (((remaining_life_years a.age cfg.max_life_expectancy : Int) : ℚ)
        * equivalence_scale a.dependents cfg.dependent_weight) = 0
    rw [hL0]
    simp

/-- Witness for the amended claim C6: raising age from 30 to 40 with one
other household present strictly lowers the target, and the row of a
household at age 100 has target exactly 0. -/
theorem target_strict_anti_in_age_and_zero_past_max_witness :
    (∃ t1 t2,
      ((computeTable defaultConfig ([] ++ (⟨3, 30, 0, 50⟩ : Household) :: [hA])).map
          (·.target_lifetime_consumption))[(0 : Nat)]? = some t1 ∧
      ((computeTable defaultConfig ([] ++ (⟨3, 40, 0, 50⟩ : Household) :: [hA])).map
          (·.target_lifetime_consumption))[(0 : Nat)]? = some t2 ∧
      t2 < t1) ∧
    (computeRow defaultConfig (c_bar defaultConfig [⟨1, 100, 0, 100⟩])
        ⟨1, 100, 0, 100⟩).target_lifetime_consumption = 0 :=
  ⟨target_strict_anti_in_age_and_zero_past_max.1 defaultConfig [] [hA] ⟨3, 30, 0, 50⟩ 30 40
      (by norm_num) (by norm_num [defaultConfig, MAX_LIFE_EXPECTANCY]) (le_refl 0)
      (by norm_num [defaultConfig, DEPENDENT_WEIGHT])
      (by norm_num [TOTAL_RESOURCES, hA])
      (by norm_num [total_adjusted_life, adjusted_life, hA, remaining_life_years,
        equivalence_scale, defaultConfig, MAX_LIFE_EXPECTANCY, DEPENDENT_WEIGHT]),
   target_strict_anti_in_age_and_zero_past_max.2 defaultConfig [⟨1, 100, 0, 100⟩] _
      (List.mem_map_of_mem _ (by simp)) (le_refl _)⟩

/-- Claim C6 counterexample: with zero total wealth, c_bar is 0 and the
target stays exactly 0 when age rises from 30 to 40 strictly below the
maximum life expectancy, so the strict decrease fails. -/
theorem age_increase_can_leave_target_unchanged :
    ((computeTable defaultConfig [⟨1, 30, 0, 0⟩, ⟨2, 50, 0, 0⟩]).map
        (·.target_lifetime_consumption))[0]? = some 0 ∧
    ((computeTable defaultConfig [⟨1, 40, 0, 0⟩, ⟨2, 50, 0, 0⟩]).map
        (·.target_lifetime_consumption))[0]? = some 0 := by
  norm_num [computeTable, computeRow, c_bar, TOTAL_RESOURCES, total_adjusted_life,
    adjusted_life, remaining_life_years, equivalence_scale, defaultConfig,
    MAX_LIFE_EXPECTANCY, DEPENDENT_WEIGHT]
